import Mathlib

/-!
Verification of the resume-analyzer core: a shallow embedding of
`src/backend/resume_parser.py` (ResumeParser) and `src/backend/job_matcher.py`
(JobMatcher), followed by theorems settling the specification claims.

Modelling conventions:
* Python strings are Lean `String` / `List Char`; Python floats are `ℚ`
  (the scoring arithmetic uses only sums and products of small constants);
  fallible operations return `Except String`.
* Python's regex classes `\s`, `\w` and ASCII case folding are modelled on
  the character ranges this code base exercises (ASCII plus the Arabic
  blocks that `_clean_text` allow-lists); other Unicode word characters are
  outside the model's scope.
* Each definition keeps the name of the Python function or constant it
  embeds, without the module prefix.
-/

/-- Python regex `\s` (ASCII range): the whitespace characters. -/
def isPySpace (c : Char) : Bool :=
  c = ' ' || c = '\t' || c = '\n' || c = '\r' || c = '\x0b' || c = '\x0c'

/-- The Arabic blocks explicitly allow-listed in `ResumeParser._clean_text`
    (U+0600–U+06FF, U+0750–U+077F, U+08A0–U+08FF, U+FB50–U+FDFF, U+FE70–U+FEFF). -/
def isArabicBlock (c : Char) : Bool :=
  (0x600 ≤ c.toNat && c.toNat ≤ 0x6FF) || (0x750 ≤ c.toNat && c.toNat ≤ 0x77F) ||
  (0x8A0 ≤ c.toNat && c.toNat ≤ 0x8FF) || (0xFB50 ≤ c.toNat && c.toNat ≤ 0xFDFF) ||
  (0xFE70 ≤ c.toNat && c.toNat ≤ 0xFEFF)

/-- Python regex `\w` over the ranges used here: ASCII alphanumerics,
    underscore, and the Arabic blocks. -/
def isPyWord (c : Char) : Bool := c.isAlphanum || c = '_' || isArabicBlock c

/-- Python `str.lower()` (ASCII case folding; the Arabic script has no case). -/
def lowerL (l : List Char) : List Char := l.map Char.toLower

/-- Lean-level Boolean prefix test on character lists. -/
def isPrefixOfL : List Char → List Char → Bool
  | [], _ => true
  | _ :: _, [] => false
  | a :: as, b :: bs => a = b && isPrefixOfL as bs

/-- Python's substring containment `needle in haystack`. -/
def inStr (needle : List Char) : List Char → Bool
  | [] => isPrefixOfL needle []
  | c :: cs => isPrefixOfL needle (c :: cs) || inStr needle cs

/-- Python `str.strip()`: drop whitespace from both ends. -/
def pyStrip (l : List Char) : List Char :=
  (((l.dropWhile isPySpace).reverse.dropWhile isPySpace)).reverse

/-- Python `str.split()` with no argument: whitespace-separated words,
    empty chunks discarded. -/
def pySplitWs (l : List Char) : List (List Char) :=
  (l.splitOnP isPySpace).filter (fun w => w ≠ [])

/-- Models `re.split` on a single-character class (also Python `str.split(sep)` for a
    one-character separator): empty chunks are kept. -/
def splitOnChars (seps : List Char) (l : List Char) : List (List Char) :=
  l.splitOnP (fun c => seps.contains c)

/-- Models `re.findall(r'\b\w+\b', s)`: the maximal runs of word characters. -/
def wordTokens (l : List Char) : List (List Char) :=
  (l.splitOnP (fun c => !isPyWord c)).filter (fun w => w ≠ [])

/-- Numeric value of a digit run (`int(...)` on a regex group). -/
def natOfDigits (l : List Char) : Nat := l.foldl (fun n c => 10 * n + (c.toNat - 48)) 0

/-! ## ResumeParser._clean_text -/

/-- One pass of `re.sub(r'\s+', ' ', text)`: the flag records whether the
    previous character was part of a whitespace run already emitted as `' '`. -/
def collapseWsAux : Bool → List Char → List Char
  | _, [] => []
  | inRun, c :: cs =>
    if isPySpace c then
      if inRun then collapseWsAux true cs else ' ' :: collapseWsAux true cs
    else c :: collapseWsAux false cs

/-- Models `re.sub(r'\s+', ' ', text)`: collapse each whitespace run to one space. -/
def collapseWs (l : List Char) : List Char := collapseWsAux false l

/-- The allow-list of `ResumeParser._clean_text`'s second substitution:
    `[^\w\s<arabic blocks>\-\.\,\;\:\!\?\(\)]` is removed, so a character is
    kept iff it is a word character (Arabic blocks included), whitespace, or
    one of the listed punctuation marks. -/
def isAllowedChar (c : Char) : Bool :=
  isPyWord c || isPySpace c ||
    ['-', '.', ',', ';', ':', '!', '?', '(', ')'].contains c

/-- Embeds `ResumeParser._clean_text`: collapse whitespace, strip disallowed
    characters, trim. -/
def clean_text (text : String) : String :=
  ⟨pyStrip ((collapseWs text.data).filter isAllowedChar)⟩

/-! ## ResumeParser._extract_name -/

/-- The metadata blacklist in `ResumeParser._extract_name`. -/
def nameKeywords : List String :=
  ["resume", "cv", "curriculum", "vitae", "experience", "education", "skills"]

/-- The test applied to each stripped line in `ResumeParser._extract_name`:
    non-blank, at most 4 whitespace-separated words, and no blacklisted
    keyword occurs (case-insensitively, as a substring). -/
def nameLineOk (line : List Char) : Bool :=
  line ≠ [] && (pySplitWs line).length ≤ 4 &&
    nameKeywords.all (fun kw => !(inStr kw.data (lowerL line)))

/-- The scanning loop of `ResumeParser._extract_name`. -/
def nameScan : List (List Char) → List Char
  | [] => []
  | l :: ls =>
    let line := pyStrip l
    if nameLineOk line then line else nameScan ls

/-- Embeds `ResumeParser._extract_name`: scan the first 5 lines for a candidate name. -/
def extract_name (text : String) : String :=
  ⟨nameScan ((splitOnChars ['\n'] text.data).take 5)⟩

/-! ## ResumeParser._parse_skills_list (the list tokenizer) -/

/-- The three delimiter patterns of `skill_patterns`, in source order:
    `[,\n;]`, `\s+and\s+`, `\s+&\s+`. -/
inductive SkillPattern where
  | commaClass
  | andSep
  | ampSep
deriving DecidableEq

/-- The characters of the class `[,\n;]`. -/
def commaChars : List Char := [',', '\n', ';']

/-- Attempt to match `\s+<word>\s+` at the head of `s`; on success return the
    text after the match.  The greedy `\s+` runs are the maximal whitespace
    runs, which coincides with the regex semantics because `<word>` starts
    with a non-whitespace character. -/
def sepMatchAt (word : List Char) (s : List Char) : Option (List Char) :=
  let w1 := s.takeWhile isPySpace
  if w1 = [] then none
  else
    let r1 := s.dropWhile isPySpace
    if isPrefixOfL word r1 then
      let r2 := r1.drop word.length
      if r2.takeWhile isPySpace = [] then none
      else some (r2.dropWhile isPySpace)
    else none

/-- Models `re.search(r'\s+<word>\s+', s)` viewed as a Boolean. -/
def hasSep (word : List Char) : List Char → Bool
  | [] => false
  | c :: cs => (sepMatchAt word (c :: cs)).isSome || hasSep word cs

/-- Models `re.split(r'\s+<word>\s+', s)`: split at each leftmost non-overlapping
    match.  Fuel is the input length; every step consumes at least one
    character, so the fuel never runs out on the initial call. -/
def splitSepAux (word : List Char) : Nat → List Char → List Char → List (List Char)
  | 0, acc, s => [acc.reverse ++ s]
  | _ + 1, acc, [] => [acc.reverse]
  | fuel + 1, acc, c :: cs =>
    match sepMatchAt word (c :: cs) with
    | some rest => acc.reverse :: splitSepAux word fuel [] rest
    | none => splitSepAux word fuel (c :: acc) cs

/-- Models `re.split(r'\s+<word>\s+', s)`. -/
def splitSep (word : List Char) (s : List Char) : List (List Char) :=
  splitSepAux word (s.length + 1) [] s

/-- Models `re.search(pattern, skills_text)` for each delimiter pattern. -/
def patSearch : SkillPattern → List Char → Bool
  | .commaClass, s => s.any (fun c => commaChars.contains c)
  | .andSep, s => hasSep ['a', 'n', 'd'] s
  | .ampSep, s => hasSep ['&'] s

/-- Models `re.split(pattern, skills_text)` for each delimiter pattern. -/
def patSplit : SkillPattern → List Char → List (List Char)
  | .commaClass, s => splitOnChars commaChars s
  | .andSep, s => splitSep ['a', 'n', 'd'] s
  | .ampSep, s => splitSep ['&'] s

/-- The ordered pattern list `skill_patterns`. -/
def skill_patterns : List SkillPattern := [.commaClass, .andSep, .ampSep]

/-- The `for pattern in skill_patterns` loop: the first pattern that occurs
    anywhere in the text splits the whole body; chunks are stripped and empty
    chunks dropped.  No pattern occurring yields `[]`. -/
def trySplitPatterns : List SkillPattern → List Char → List (List Char)
  | [], _ => []
  | p :: ps, s =>
    if patSearch p s then ((patSplit p s).map pyStrip).filter (fun w => w ≠ [])
    else trySplitPatterns ps s

/-- Embeds `ResumeParser._parse_skills_list`: delimiter-based split with whitespace
    fallback (`if not skills`), then `skills[:20]`. -/
def parse_skills_list (s : String) : List String :=
  let skills := trySplitPatterns skill_patterns s.data
  let skills :=
    if skills = [] then
      ((pySplitWs s.data).filter (fun w => (pyStrip w).length > 2)).map pyStrip
    else skills
  (skills.take 20).map (fun w => (⟨w⟩ : String))

/-! ## Section location (the per-section regex searches)

Each extractor searches, in order, patterns of the shape
`<header>[:\s]*(.*?)(?=<stop>|$)` with `re.IGNORECASE | re.DOTALL`; the first
pattern that matches wins.  Such a pattern matches iff the header occurs
(case-insensitively); the greedy `[:\s]*` then takes the maximal run and the
lazy capture extends to the first position where the stop lookahead holds,
or to the end of the text.  Note that under `re.IGNORECASE` the `[A-Z]` in
the stop lookaheads matches letters of either case. -/

/-- Text following the leftmost case-insensitive occurrence of `header`
    (`header` is given lowercased). -/
def afterHeader (header : List Char) : List Char → Option (List Char)
  | [] => if header = [] then some [] else none
  | c :: cs =>
    if isPrefixOfL header (lowerL (c :: cs)) then some ((c :: cs).drop header.length)
    else afterHeader header cs

/-- The class `[:\s]`. -/
def isColonOrSpace (c : Char) : Bool := c = ':' || isPySpace c

/-- Zero-width test for the lookahead `\n\s*\n\s*[A-Z]` (IGNORECASE): a
    newline, a second newline inside the same whitespace run, and a letter
    immediately after the run. -/
def sectionStopAt (s : List Char) : Bool :=
  match s with
  | '\n' :: rest =>
    (rest.takeWhile isPySpace).contains '\n' &&
      (match (rest.dropWhile isPySpace).head? with
       | some c => c.isAlpha
       | none => false)
  | _ => false

/-- Zero-width test for the lookahead `\n\s*\n|\n\s*[A-Z]` (IGNORECASE) used
    by the summary patterns. -/
def summaryStopAt (s : List Char) : Bool :=
  match s with
  | '\n' :: rest =>
    (rest.takeWhile isPySpace).contains '\n' ||
      (match (rest.dropWhile isPySpace).head? with
       | some c => c.isAlpha
       | none => false)
  | _ => false

/-- The lazy capture `(.*?)` bounded by a stop lookahead or end of text. -/
def captureUntil (stopAt : List Char → Bool) : List Char → List Char
  | [] => []
  | c :: cs => if stopAt (c :: cs) then [] else c :: captureUntil stopAt cs

/-- The shared `for pattern in patterns: match = re.search(...); if match:
    ...; break` loop of the section extractors. -/
def findSection (stopAt : List Char → Bool) : List String → List Char → Option (List Char)
  | [], _ => none
  | h :: hs, text =>
    match afterHeader h.data text with
    | some rest => some (captureUntil stopAt (rest.dropWhile isColonOrSpace))
    | none => findSection stopAt hs text

/-! ## ResumeParser._extract_summary -/

def summaryHeaders : List String := ["summary", "objective", "profile", "ملخص", "الهدف"]

/-- Embeds `ResumeParser._extract_summary`. -/
def extract_summary (text : String) : String :=
  match findSection summaryStopAt summaryHeaders text.data with
  | some body => ⟨pyStrip body⟩
  | none => ""

/-! ## Record segmentation (experience / education / projects) -/

/-- Models `re.search('(w1|w2|...)', line, IGNORECASE)`: some trigger word occurs in
    the line. -/
def hasTrigger (triggers : List String) (line : List Char) : Bool :=
  triggers.any (fun t => inStr t.data (lowerL line))

/-- The shared shape of `_parse_experience_entries`, `_parse_education_entries`
    and `_parse_project_entries`: a current record opens on a trigger line,
    accumulates description lines joined by blanks, and closes on a blank
    line, on a new trigger line, or at end of input.  Records are pairs of
    the title field and the optional second field. -/
def segmentRecords (trigger : List Char → Bool) :
    List (List Char) → Option (List Char × Option (List Char)) →
      List (List Char × Option (List Char))
  | [], cur =>
    (match cur with
     | some e => [e]
     | none => [])
  | l :: ls, cur =>
    let line := pyStrip l
    if line = [] then
      match cur with
      | some e => e :: segmentRecords trigger ls none
      | none => segmentRecords trigger ls none
    else if trigger line then
      match cur with
      | some e => e :: segmentRecords trigger ls (some (line, none))
      | none => segmentRecords trigger ls (some (line, none))
    else
      match cur with
      | some (t, some d) => segmentRecords trigger ls (some (t, some (d ++ ' ' :: line)))
      | some (t, none) => segmentRecords trigger ls (some (t, some line))
      | none => segmentRecords trigger ls none

structure ExperienceEntry where
  title : String
  description : Option String
deriving DecidableEq, Repr

structure EducationEntry where
  degree : String
  institution : Option String
deriving DecidableEq, Repr

structure ProjectEntry where
  title : String
  description : Option String
deriving DecidableEq, Repr

def experienceHeaders : List String :=
  ["experience", "work history", "employment", "الخبرة", "العمل"]

def experienceTriggers : List String :=
  ["senior", "junior", "lead", "manager", "director", "engineer", "developer",
   "analyst", "consultant"]

/-- Embeds `ResumeParser._parse_experience_entries`. -/
def parse_experience_entries (expText : List Char) : List ExperienceEntry :=
  (segmentRecords (hasTrigger experienceTriggers) (splitOnChars ['\n'] expText) none).map
    (fun e => ⟨⟨e.1⟩, e.2.map (fun d => (⟨d⟩ : String))⟩)

/-- Embeds `ResumeParser._extract_experience`. -/
def extract_experience (text : String) : List ExperienceEntry :=
  match findSection sectionStopAt experienceHeaders text.data with
  | some body => parse_experience_entries body
  | none => []

def educationHeaders : List String := ["education", "academic", "التعليم", "الدراسة"]

def educationTriggers : List String :=
  ["bachelor", "master", "phd", "diploma", "certificate", "degree"]

/-- Embeds `ResumeParser._parse_education_entries`. -/
def parse_education_entries (eduText : List Char) : List EducationEntry :=
  (segmentRecords (hasTrigger educationTriggers) (splitOnChars ['\n'] eduText) none).map
    (fun e => ⟨⟨e.1⟩, e.2.map (fun d => (⟨d⟩ : String))⟩)

/-- Embeds `ResumeParser._extract_education`. -/
def extract_education (text : String) : List EducationEntry :=
  match findSection sectionStopAt educationHeaders text.data with
  | some body => parse_education_entries body
  | none => []

def projectHeaders : List String := ["projects", "المشاريع"]

def projectTriggers : List String :=
  ["project", "application", "system", "platform", "website", "app"]

/-- Embeds `ResumeParser._parse_project_entries`. -/
def parse_project_entries (projText : List Char) : List ProjectEntry :=
  (segmentRecords (hasTrigger projectTriggers) (splitOnChars ['\n'] projText) none).map
    (fun e => ⟨⟨e.1⟩, e.2.map (fun d => (⟨d⟩ : String))⟩)

/-- Embeds `ResumeParser._extract_projects`. -/
def extract_projects (text : String) : List ProjectEntry :=
  match findSection sectionStopAt projectHeaders text.data with
  | some body => parse_project_entries body
  | none => []

/-! ## The list-section extractors -/

def skillsHeaders : List String :=
  ["skills", "technical skills", "competencies", "المهارات", "الخبرات"]

/-- Embeds `ResumeParser._extract_skills`. -/
def extract_skills (text : String) : List String :=
  match findSection sectionStopAt skillsHeaders text.data with
  | some body => parse_skills_list (⟨body⟩ : String)
  | none => []

def languageHeaders : List String := ["languages", "اللغات"]

/-- Embeds `ResumeParser._extract_languages`. -/
def extract_languages (text : String) : List String :=
  match findSection sectionStopAt languageHeaders text.data with
  | some body => parse_skills_list (⟨body⟩ : String)
  | none => []

def certificationHeaders : List String := ["certifications", "certificates", "الشهادات"]

/-- Embeds `ResumeParser._extract_certifications`. -/
def extract_certifications (text : String) : List String :=
  match findSection sectionStopAt certificationHeaders text.data with
  | some body => parse_skills_list (⟨body⟩ : String)
  | none => []

/-! ## ResumeParser._extract_contact_info

The three contact patterns use only literals, character classes, greedy
`?` / `+` / `{n,}` repetition and the word boundary `\b`, so they are
embedded via a small backtracking matcher over that fragment.  Alternatives
are explored in the engine order Python uses (greedy first), and a search
returns the leftmost match's text (`match.group()`). -/

/-- The regex fragment used by the contact patterns. -/
inductive RE where
  | lit : Char → RE
  | cls : (Char → Bool) → RE
  | seq : RE → RE → RE
  | opt : RE → RE
  | star : RE → RE
  | bnd : RE

/-- Last character of `m`, else the previous context character. -/
def lastOr (prev : Option Char) (m : List Char) : Option Char :=
  match m.getLast? with
  | some c => some c
  | none => prev

/-- Whether a word boundary separates `prev` from `next`. -/
def isBoundary (prev next : Option Char) : Bool :=
  (match prev with
   | some c => isPyWord c
   | none => false) !=
  (match next with
   | some c => isPyWord c
   | none => false)

/-- All ways `re` can match a prefix of `s`, most preferred (greedy) first,
    as pairs of consumed text and remainder.  `prev` is the character before
    `s` (for `\b`).  The fuel bounds `star` unfolding; every unfolding
    consumes at least one character, so `s.length + 1` always suffices. -/
def reRuns : Nat → RE → Option Char → List Char → List (List Char × List Char)
  | _, .lit _, _, [] => []
  | _, .lit a, _, c :: cs => if c = a then [([c], cs)] else []
  | _, .cls _, _, [] => []
  | _, .cls p, _, c :: cs => if p c then [([c], cs)] else []
  | fuel, .seq a b, prev, s =>
    (reRuns fuel a prev s).flatMap fun pr =>
      (reRuns fuel b (lastOr prev pr.1) pr.2).map fun qr => (pr.1 ++ qr.1, qr.2)
  | fuel, .opt a, prev, s => reRuns fuel a prev s ++ [([], s)]
  | 0, .star _, _, s => [([], s)]
  | fuel + 1, .star a, prev, s =>
    ((reRuns (fuel + 1) a prev s).flatMap fun pr =>
      if pr.1 = [] then []
      else (reRuns fuel (.star a) (lastOr prev pr.1) pr.2).map fun qr =>
        (pr.1 ++ qr.1, qr.2)) ++ [([], s)]
  | _, .bnd, prev, s => if isBoundary prev s.head? then [([], s)] else []
termination_by fuel re _ _ => (fuel, sizeOf re)

/-- The preferred match of `re` at the very start of `s`, if any. -/
def reFirst (re : RE) (prev : Option Char) (s : List Char) : Option (List Char) :=
  match reRuns (s.length + 1) re prev s with
  | [] => none
  | pr :: _ => some pr.1

/-- Models `re.search`: the text of the leftmost match. -/
def reSearch (re : RE) : Option Char → List Char → Option (List Char)
  | prev, [] => reFirst re prev []
  | prev, c :: cs =>
    match reFirst re prev (c :: cs) with
    | some m => some m
    | none => reSearch re (some c) cs

/-- Regex `r` followed by the regexes in the list. -/
def reSeqs : RE → List RE → RE
  | r, [] => r
  | r, x :: xs => .seq r (reSeqs x xs)

/-- A literal character sequence in front of a tail regex. -/
def reLit : List Char → RE → RE
  | [], tail => tail
  | c :: cs, tail => .seq (.lit c) (reLit cs tail)

/-- Greedy `+`. -/
def rePlus (r : RE) : RE := .seq r (.star r)

/-- Greedy `{n,}`. -/
def reAtLeast : Nat → RE → RE
  | 0, r => .star r
  | n + 1, r => .seq r (reAtLeast n r)

/-- The class `[A-Za-z0-9._%+-]`. -/
def emailLocalChar (c : Char) : Bool :=
  c.isAlpha || c.isDigit || ['.', '_', '%', '+', '-'].contains c

/-- The class `[A-Za-z0-9.-]`. -/
def emailDomainChar (c : Char) : Bool :=
  c.isAlpha || c.isDigit || c = '.' || c = '-'

/-- The class `[A-Z|a-z]`: inside a class the pipe is a literal pipe. -/
def emailTldChar (c : Char) : Bool := c.isAlpha || c = '|'

/-- The pattern `r'\b[A-Za-z0-9._%+-]+@[A-Za-z0-9.-]+\.[A-Z|a-z]{2,}\b'`. -/
def email_pattern : RE :=
  reSeqs .bnd
    [rePlus (.cls emailLocalChar), .lit '@', rePlus (.cls emailDomainChar),
     .lit '.', reAtLeast 2 (.cls emailTldChar), .bnd]

/-- The class `[\d\s\-\(\)]`. -/
def phoneChar (c : Char) : Bool :=
  c.isDigit || isPySpace c || ['-', '(', ')'].contains c

/-- The pattern `r'\+?[\d\s\-\(\)]{10,}'` (international format, tried first). -/
def phone_pattern_intl : RE := .seq (.opt (.lit '+')) (reAtLeast 10 (.cls phoneChar))

/-- The pattern `r'[\d\s\-\(\)]{10,}'` (local format, tried second). -/
def phone_pattern_local : RE := reAtLeast 10 (.cls phoneChar)

/-- The class `[\w\-]`. -/
def linkedinChar (c : Char) : Bool := isPyWord c || c = '-'

/-- The pattern `r'linkedin\.com/in/[\w\-]+'`. -/
def linkedin_pattern : RE :=
  reLit "linkedin.com/in/".data (rePlus (.cls linkedinChar))

structure ContactInfo where
  email : Option String
  phone : Option String
  linkedin : Option String
deriving DecidableEq, Repr

/-- Embeds `ResumeParser._extract_contact_info`: three independent searches; the
    phone patterns are tried in order with the first match winning, and the
    phone text is stripped (`phone_match.group().strip()`). -/
def extract_contact_info (text : String) : ContactInfo :=
  let email := (reSearch email_pattern none text.data).map (fun m => (⟨m⟩ : String))
  let phone :=
    match reSearch phone_pattern_intl none text.data with
    | some m => some ((⟨pyStrip m⟩ : String))
    | none =>
      match reSearch phone_pattern_local none text.data with
      | some m => some ((⟨pyStrip m⟩ : String))
      | none => none
  let linkedin := (reSearch linkedin_pattern none text.data).map (fun m => (⟨m⟩ : String))
  { email := email, phone := phone, linkedin := linkedin }

/-! ## ResumeParser._extract_structure -/

structure ResumeData where
  raw_text : String
  contact_info : ContactInfo
  name : String
  summary : String
  experience : List ExperienceEntry
  education : List EducationEntry
  skills : List String
  languages : List String
  certifications : List String
  projects : List ProjectEntry
deriving DecidableEq, Repr

/-- Embeds `ResumeParser._extract_structure`: clean the text, then run every field
    extractor on the cleaned text. -/
def extract_structure (text : String) : ResumeData :=
  let text := clean_text text
  { raw_text := text
    contact_info := extract_contact_info text
    name := extract_name text
    summary := extract_summary text
    experience := extract_experience text
    education := extract_education text
    skills := extract_skills text
    languages := extract_languages text
    certifications := extract_certifications text
    projects := extract_projects text }

/-! ## JobMatcher: data model and default catalog -/

/-- One row of the job-listings data (the fields of every catalog entry).
    `_prepare_jobs_data` additionally derives a `combined_text` column; it is
    only consumed by the TF-IDF fallback path, which no scoring claim uses,
    and is kept as a derived function below. -/
structure JobPosting where
  title : String
  company : String
  location : String
  salary : String
  experience : String
  description : String
  requirements : String
  job_type : String
  industry : String
deriving DecidableEq, Repr

/-- The derived `combined_text` column of `_prepare_jobs_data`. -/
def combined_text (job : JobPosting) : String :=
  job.title ++ " " ++ job.description ++ " " ++ job.requirements ++ " " ++ job.company

/-- Embeds `JobMatcher._load_default_jobs`: the built-in catalog. -/
def default_jobs : List JobPosting :=
  [{ title := "Senior Software Engineer", company := "TechCorp Dubai",
     location := "Dubai, UAE", salary := "AED 25,000 - 35,000",
     experience := "5-8 years",
     description := "We are looking for a Senior Software Engineer with expertise in Python, JavaScript, and cloud technologies. Experience with AWS, Docker, and microservices architecture is required.",
     requirements := "Python, JavaScript, AWS, Docker, Microservices, React, Node.js, MongoDB, PostgreSQL",
     job_type := "Full-time", industry := "Technology" },
   { title := "Data Scientist", company := "DataFlow Analytics",
     location := "Dubai, UAE", salary := "AED 20,000 - 30,000",
     experience := "3-6 years",
     description := "Join our data science team to develop machine learning models and analytics solutions. Work with large datasets and implement predictive models.",
     requirements := "Python, Machine Learning, Statistics, SQL, Pandas, Scikit-learn, TensorFlow, Data Analysis",
     job_type := "Full-time", industry := "Technology" },
   { title := "Marketing Manager", company := "Global Marketing Solutions",
     location := "Dubai, UAE", salary := "AED 18,000 - 25,000",
     experience := "4-7 years",
     description := "Lead marketing campaigns and strategies for our clients in the MENA region. Experience in digital marketing and brand management required.",
     requirements := "Digital Marketing, Brand Management, Social Media, Google Ads, Analytics, Campaign Management",
     job_type := "Full-time", industry := "Marketing" },
   { title := "Financial Analyst", company := "Dubai Financial Services",
     location := "Dubai, UAE", salary := "AED 15,000 - 22,000",
     experience := "2-5 years",
     description := "Analyze financial data, prepare reports, and provide insights for investment decisions. CFA or similar certification preferred.",
     requirements := "Financial Analysis, Excel, Financial Modeling, CFA, Investment Analysis, Risk Management",
     job_type := "Full-time", industry := "Finance" },
   { title := "UX/UI Designer", company := "Creative Design Studio",
     location := "Dubai, UAE", salary := "AED 16,000 - 24,000",
     experience := "3-6 years",
     description := "Create user-centered designs for web and mobile applications. Experience with design tools and user research methods required.",
     requirements := "Figma, Adobe Creative Suite, User Research, Prototyping, Wireframing, Design Systems",
     job_type := "Full-time", industry := "Design" },
   { title := "Project Manager", company := "Construction Solutions Ltd",
     location := "Dubai, UAE", salary := "AED 20,000 - 28,000",
     experience := "5-8 years",
     description := "Manage construction projects from inception to completion. PMP certification and experience in the UAE market preferred.",
     requirements := "Project Management, PMP, Construction, Budget Management, Team Leadership, Risk Management",
     job_type := "Full-time", industry := "Construction" },
   { title := "Sales Executive", company := "Dubai Trading Company",
     location := "Dubai, UAE", salary := "AED 8,000 - 15,000",
     experience := "1-3 years",
     description := "Generate new business opportunities and maintain relationships with existing clients. Strong communication skills required.",
     requirements := "Sales, Customer Relationship Management, Communication, Negotiation, B2B Sales",
     job_type := "Full-time", industry := "Sales" },
   { title := "Human Resources Specialist", company := "HR Solutions UAE",
     location := "Dubai, UAE", salary := "AED 12,000 - 18,000",
     experience := "3-5 years",
     description := "Handle recruitment, employee relations, and HR operations. Knowledge of UAE labor law required.",
     requirements := "HR Management, Recruitment, Employee Relations, UAE Labor Law, HRIS, Performance Management",
     job_type := "Full-time", industry := "Human Resources" },
   { title := "Business Development Manager", company := "Innovation Hub Dubai",
     location := "Dubai, UAE", salary := "AED 22,000 - 32,000",
     experience := "4-7 years",
     description := "Develop strategic partnerships and identify new business opportunities in the technology sector.",
     requirements := "Business Development, Strategic Partnerships, Market Analysis, Negotiation, Technology Industry",
     job_type := "Full-time", industry := "Business Development" },
   { title := "Content Writer", company := "Digital Content Agency",
     location := "Dubai, UAE", salary := "AED 8,000 - 12,000",
     experience := "2-4 years",
     description := "Create engaging content for websites, blogs, and social media platforms. Experience in SEO and content marketing preferred.",
     requirements := "Content Writing, SEO, Social Media, Copywriting, Content Marketing, WordPress",
     job_type := "Full-time", industry := "Marketing" }]

/-- Python truthiness of a pandas DataFrame: `bool(df)` raises ValueError
    unconditionally (for empty and non-empty frames alike). -/
def dataFrameTruth (_df : List JobPosting) : Except String Bool :=
  Except.error "ValueError: The truth value of a DataFrame is ambiguous."

/-- Embeds `JobMatcher.__init__`: `self.jobs_data = jobs_data or self._load_default_jobs()`.
    Python's `a or b` first evaluates the truthiness of `a`; `bool(None)` is
    `False` (so the default catalog is loaded), while the truthiness of a
    DataFrame raises. -/
def jobMatcherInit (jobs_data : Option (List JobPosting)) : Except String (List JobPosting) :=
  match jobs_data with
  | none => Except.ok default_jobs
  | some df =>
    match dataFrameTruth df with
    | Except.error e => Except.error e
    | Except.ok true => Except.ok df
    | Except.ok false => Except.ok default_jobs

/-! ## JobMatcher: the four factor scores -/

/-- Embeds `JobMatcher._calculate_keyword_score`. -/
def calculate_keyword_score (resume_text : String) (job : JobPosting) : ℚ :=
  let keywords := wordTokens (lowerL job.requirements.data)
  if keywords = [] then 0
  else
    let resume_lower := lowerL resume_text.data
    ((keywords.countP (fun keyword => inStr keyword resume_lower) : ℚ)) /
      ((keywords.length : ℚ))

/-- Embeds `JobMatcher._calculate_title_match`. -/
def calculate_title_match (resume_text : String) (job_title : String) : ℚ :=
  let title_keywords := wordTokens (lowerL job_title.data)
  if title_keywords = [] then 0
  else
    let resume_lower := lowerL resume_text.data
    ((title_keywords.countP (fun keyword => inStr keyword resume_lower) : ℚ)) /
      ((title_keywords.length : ℚ))

/-- The curated vocabulary in `JobMatcher._calculate_skills_match`. -/
def technical_skills : List String :=
  ["python", "javascript", "java", "c++", "c#", "php", "ruby", "go", "rust",
   "html", "css", "react", "angular", "vue", "node.js", "express", "django",
   "flask", "spring", "laravel", "sql", "mongodb", "postgresql", "mysql",
   "aws", "azure", "gcp", "docker", "kubernetes", "git", "jenkins",
   "machine learning", "ai", "data science", "analytics", "tableau",
   "excel", "power bi", "spark", "hadoop", "tensorflow", "pytorch"]

/-- Embeds `JobMatcher._calculate_skills_match`. -/
def calculate_skills_match (resume_text : String) (job_requirements : String) : ℚ :=
  let req_lower := lowerL job_requirements.data
  let job_skills := technical_skills.filter (fun skill => inStr skill.data req_lower)
  if job_skills = [] then 0
  else
    let resume_lower := lowerL resume_text.data
    ((job_skills.countP (fun skill => inStr skill.data resume_lower) : ℚ)) /
      ((job_skills.length : ℚ))

/-- Attempt to match `(\d+)[\-\s]*(\d+)?\s*years?` at the head of `s`,
    returning the two numeric groups.  The greedy class runs coincide with
    maximal runs here: `\d+` is followed by classes that exclude digits, and
    shortening `[\-\s]*` or `(\d+)?` only exposes a character the next
    pattern element cannot match. -/
def yearsMatchAt (s : List Char) : Option (Nat × Option Nat) :=
  let d1 := s.takeWhile Char.isDigit
  if d1 = [] then none
  else
    let r1 := s.dropWhile Char.isDigit
    let r2 := r1.dropWhile (fun c => c = '-' || isPySpace c)
    let d2 := r2.takeWhile Char.isDigit
    let r3 := r2.dropWhile Char.isDigit
    let r4 := r3.dropWhile isPySpace
    if isPrefixOfL ['y', 'e', 'a', 'r'] r4 then
      some (natOfDigits d1, if d2 = [] then none else some (natOfDigits d2))
    else none

/-- Models `re.search(r'(\d+)[\-\s]*(\d+)?\s*years?', s)`: groups of the leftmost
    match. -/
def searchYears : List Char → Option (Nat × Option Nat)
  | [] => none
  | c :: cs =>
    match yearsMatchAt (c :: cs) with
    | some g => some g
    | none => searchYears cs

/-- The `experience_indicators` list in `JobMatcher._calculate_experience_match`. -/
def experience_indicators : List String :=
  ["years of experience", "years experience", "worked for", "employed for",
   "experience in", "professional experience", "work history"]

/-- Embeds `JobMatcher._calculate_experience_match`.  The numeric bounds are parsed
    (with `max = min + 2` when the second group is absent) but, as in the
    source, never influence the returned score. -/
def calculate_experience_match (resume_text : String) (job_experience : String) : ℚ :=
  match searchYears (lowerL job_experience.data) with
  | none => 1/2
  | some (mn, mx) =>
    let min_years := mn
    let max_years := mx.getD (min_years + 2)
    let has_experience :=
      experience_indicators.any (fun indicator => inStr indicator.data (lowerL resume_text.data))
    if !has_experience then 0 else
    let _ := max_years
    4/5

/-- Embeds `JobMatcher._calculate_job_match_score`: the weighted sum, clamped. -/
def calculate_job_match_score (resume_text : String) (job : JobPosting) : ℚ :=
  let score : ℚ := 0
  let keyword_score := calculate_keyword_score resume_text job
  let score := score + keyword_score * 0.4
  let title_score := calculate_title_match resume_text job.title
  let score := score + title_score * 0.2
  let skills_score := calculate_skills_match resume_text job.requirements
  let score := score + skills_score * 0.25
  let experience_score := calculate_experience_match resume_text job.experience
  let score := score + experience_score * 0.15
  min 1 (max 0 score)

/-! ## JobMatcher: ranking and catalog operations -/

/-- Embeds `JobMatcher._prepare_resume_text`: concatenate the profile fields into
    one matching surface.  Truthiness guards (`if resume_data.get(...)`)
    skip empty name / summary / raw text; entry fields are appended
    unconditionally with `.get(key, '')` defaults. -/
def prepare_resume_text (resume_data : ResumeData) : String :=
  let text_parts : List String :=
    (if resume_data.name ≠ "" then [resume_data.name] else []) ++
    (if resume_data.summary ≠ "" then [resume_data.summary] else []) ++
    resume_data.skills ++
    (resume_data.experience.flatMap (fun exp => [exp.title, exp.description.getD ""])) ++
    (resume_data.education.flatMap (fun edu => [edu.degree, edu.institution.getD ""])) ++
    (resume_data.projects.flatMap (fun proj => [proj.title, proj.description.getD ""])) ++
    (if resume_data.raw_text ≠ "" then [resume_data.raw_text] else [])
  String.intercalate " " text_parts

/-- Python `round(q, 1)` on exact rationals: round half to even at one
    decimal.  (CPython rounds the nearest-double value; the doubles arising
    here are not claimed about, so the exact-rational rounding stands in.) -/
def roundHalfEven (q : ℚ) : ℤ :=
  let f := ⌊q⌋
  let r := q - f
  if r < 1/2 then f
  else if 1/2 < r then f + 1
  else if Even f then f else f + 1

/-- Python `round(score * 100, 1)` viewed as a rational. -/
def round1 (q : ℚ) : ℚ := ((roundHalfEven (q * 10) : ℚ)) / 10

/-- One `match_info` record of `JobMatcher.match_resume_to_jobs`. -/
structure MatchResult where
  job_id : ℕ
  title : String
  company : String
  location : String
  salary : String
  experience : String
  description : String
  requirements : String
  job_type : String
  industry : String
  match_score : ℚ
  match_percentage : ℚ
deriving DecidableEq, Repr

/-- Build the `match_info` record for row `idx`. -/
def mkMatchInfo (idx : ℕ) (job : JobPosting) (score : ℚ) : MatchResult :=
  { job_id := idx, title := job.title, company := job.company,
    location := job.location, salary := job.salary, experience := job.experience,
    description := job.description, requirements := job.requirements,
    job_type := job.job_type, industry := job.industry,
    match_score := score, match_percentage := round1 (score * 100) }

/-- The `matches` list built by the `for idx, job in self.jobs_data.iterrows()`
    loop, in catalog order. -/
def all_matches (catalog : List JobPosting) (resume_data : ResumeData) : List MatchResult :=
  let resume_text := prepare_resume_text resume_data
  catalog.enum.map (fun p => mkMatchInfo p.1 p.2 (calculate_job_match_score resume_text p.2))

/-- The comparison realised by `matches.sort(key=lambda x: x['match_score'],
    reverse=True)`: `a` may precede `b` iff `b`'s score is no larger. -/
def matchLe (a b : MatchResult) : Bool := decide (b.match_score ≤ a.match_score)

/-- Embeds `JobMatcher.match_resume_to_jobs`: score every catalog entry, sort by
    descending score and truncate.  Python's `list.sort` is stable, and a
    stable sort by a fixed comparison is unique, so `List.mergeSort` realises
    it; the caller-side default for `top_n` is 5. -/
def match_resume_to_jobs (catalog : List JobPosting) (resume_data : ResumeData)
    (top_n : ℕ) : List MatchResult :=
  if catalog = [] then []
  else ((all_matches catalog resume_data).mergeSort matchLe).take top_n

/-- pandas `DataFrame.iloc[i]` row access with Python negative indexing:
    out-of-bounds positions raise IndexError. -/
def iloc (cat : List JobPosting) (i : ℤ) : Except String JobPosting :=
  if h : 0 ≤ i ∧ i.toNat < cat.length then Except.ok (cat.get ⟨i.toNat, h.2⟩)
  else if h2 : i < 0 ∧ (i + cat.length).toNat < cat.length ∧ 0 ≤ i + cat.length then
    Except.ok (cat.get ⟨(i + cat.length).toNat, h2.2.1⟩)
  else Except.error "IndexError: single positional indexer is out-of-bounds"

/-- Embeds `JobMatcher.get_job_details`: `{}` (here `none`) when `job_id >=
    len(jobs_data)`, otherwise the `iloc` row; the guard does not catch
    negative ids.  (The `jobs_data is None` branch cannot arise with the
    catalog modelled as a list.) -/
def get_job_details (cat : List JobPosting) (job_id : ℤ) :
    Except String (Option JobPosting) :=
  if (cat.length : ℤ) ≤ job_id then Except.ok none
  else (iloc cat job_id).map some

/-- Embeds `JobMatcher.search_jobs`: case-insensitive substring search over title,
    company, description and requirements, in catalog order, truncated to
    `top_n`.  Results are modelled as (row index, posting) pairs standing
    for the `match_info` dicts. -/
def search_jobs (cat : List JobPosting) (query : String) (top_n : ℕ) :
    List (ℕ × JobPosting) :=
  if cat = [] then []
  else
    let query_lower := lowerL query.data
    ((cat.enum.filter (fun p =>
      inStr query_lower (lowerL p.2.title.data) ||
      inStr query_lower (lowerL p.2.company.data) ||
      inStr query_lower (lowerL p.2.description.data) ||
      inStr query_lower (lowerL p.2.requirements.data))).take top_n)

/-- Embeds `JobMatcher.get_jobs_by_industry`: case-insensitive exact match on the
    industry column. -/
def get_jobs_by_industry (cat : List JobPosting) (industry : String) : List JobPosting :=
  if cat = [] then []
  else cat.filter (fun job => lowerL job.industry.data == lowerL industry.data)

/-! ## Claim-side definitions

The following definitions transcribe the *specification's wording* where it
differs from the source, for comparison against the embedded code. -/

/-- The keyword factor as claim C5 words it: the count of **distinct**
    requirement tokens appearing in the lower-cased resume text, divided by
    the total number of requirement tokens. -/
def keyword_score_claim (resume_text : String) (job : JobPosting) : ℚ :=
  let keywords := wordTokens (lowerL job.requirements.data)
  if keywords = [] then 0
  else
    ((keywords.dedup.countP (fun keyword => inStr keyword (lowerL resume_text.data)) : ℚ)) /
      ((keywords.length : ℚ))

/-- The list tokenizer as claim C4 words it: the first delimiter class that
    appears anywhere splits the whole body; only if none appears does the
    whitespace fallback (tokens longer than 2 characters) run; the 20-token
    cap applies only when `capped` is set (the skills section), and not to
    languages or certifications. -/
def list_tokens_claim (capped : Bool) (s : String) : List String :=
  let toks :=
    if patSearch .commaClass s.data then
      ((patSplit .commaClass s.data).map pyStrip).filter (fun w => w ≠ [])
    else if patSearch .andSep s.data then
      ((patSplit .andSep s.data).map pyStrip).filter (fun w => w ≠ [])
    else if patSearch .ampSep s.data then
      ((patSplit .ampSep s.data).map pyStrip).filter (fun w => w ≠ [])
    else (pySplitWs s.data).filter (fun w => w.length > 2)
  ((if capped then toks.take 20 else toks).map (fun w => (⟨w⟩ : String)))

/-- Name qualification exactly as claim C8 words it: at most 4
    whitespace-separated words and no blacklisted metadata word — with no
    non-blank requirement; the first qualifying of the first 5 lines becomes
    the name. -/
def name_claim (text : String) : String :=
  ⟨(((((splitOnChars ['\n'] text.data).take 5).map pyStrip).find? (fun line =>
      (pySplitWs line).length ≤ 4 &&
        nameKeywords.all (fun kw => !(inStr kw.data (lowerL line))))).getD [])⟩

/-! ## Helper lemmas -/

theorem countP_div_length_bounds {α : Type} (p : α → Bool) (l : List α) (h : l ≠ []) :
    0 ≤ ((l.countP p : ℚ)) / ((l.length : ℚ)) ∧
      ((l.countP p : ℚ)) / ((l.length : ℚ)) ≤ 1 := by
  have hpos : 0 < ((l.length : ℚ)) := by
    exact_mod_cast List.length_pos.mpr h
  constructor
  · positivity
  · rw [div_le_one hpos]
    exact_mod_cast List.countP_le_length p

theorem calculate_keyword_score_bounds (rt : String) (job : JobPosting) :
    0 ≤ calculate_keyword_score rt job ∧ calculate_keyword_score rt job ≤ 1 := by
  by_cases h : wordTokens (lowerL job.requirements.data) = []
  · simp [calculate_keyword_score, h]
  · simp only [calculate_keyword_score, h, if_false]
    exact countP_div_length_bounds _ _ h

theorem calculate_title_match_bounds (rt : String) (t : String) :
    0 ≤ calculate_title_match rt t ∧ calculate_title_match rt t ≤ 1 := by
  by_cases h : wordTokens (lowerL t.data) = []
  · simp [calculate_title_match, h]
  · simp only [calculate_title_match, h, if_false]
    exact countP_div_length_bounds _ _ h

theorem calculate_skills_match_bounds (rt : String) (req : String) :
    0 ≤ calculate_skills_match rt req ∧ calculate_skills_match rt req ≤ 1 := by
  by_cases h : technical_skills.filter (fun skill => inStr skill.data (lowerL req.data)) = []
  · simp [calculate_skills_match, h]
  · simp only [calculate_skills_match, h, if_false]
    exact countP_div_length_bounds _ _ h

theorem calculate_experience_match_cases (rt je : String) :
    calculate_experience_match rt je = 1/2 ∨ calculate_experience_match rt je = 0 ∨
      calculate_experience_match rt je = 4/5 := by
  unfold calculate_experience_match
  cases searchYears (lowerL je.data) with
  | none => exact Or.inl rfl
  | some g =>
    obtain ⟨mn, mx⟩ := g
    by_cases hb : experience_indicators.any
        (fun indicator => inStr indicator.data (lowerL rt.data))
    · simp [hb]
    · simp [hb]

theorem calculate_experience_match_bounds (rt je : String) :
    0 ≤ calculate_experience_match rt je ∧ calculate_experience_match rt je ≤ 1 := by
  rcases calculate_experience_match_cases rt je with h | h | h <;> rw [h] <;> norm_num

/-! ## C1 -/

/-- C1: constructing the matcher with no catalog succeeds with the built-in
    10-entry default, but constructing it with an externally supplied
    catalog raises: `jobs_data or self._load_default_jobs()` evaluates the
    truthiness of the supplied DataFrame, which raises ValueError.  This
    theorem evaluates the constructor on both paths. -/
theorem claim_constructor_behavior :
    jobMatcherInit (some default_jobs) =
      Except.error "ValueError: The truth value of a DataFrame is ambiguous." ∧
    jobMatcherInit none = Except.ok default_jobs ∧
    default_jobs.length = 10 :=
  ⟨rfl, rfl, rfl⟩

/-! ## C2 -/

/-- C2: for every (resume text, posting) pair the total score is exactly the
    weighted sum 0.40·keyword + 0.20·title + 0.25·skills + 0.15·experience
    clamped to [0,1]; the weights sum to 1; each factor and the total lie in
    [0,1]. -/
theorem claim_total_score_formula (rt : String) (job : JobPosting) :
    calculate_job_match_score rt job =
      min 1 (max 0 (0.4 * calculate_keyword_score rt job +
        0.2 * calculate_title_match rt job.title +
        0.25 * calculate_skills_match rt job.requirements +
        0.15 * calculate_experience_match rt job.experience)) ∧
    ((0.4 : ℚ) + 0.2 + 0.25 + 0.15 = 1) ∧
    (0 ≤ calculate_keyword_score rt job ∧ calculate_keyword_score rt job ≤ 1) ∧
    (0 ≤ calculate_title_match rt job.title ∧ calculate_title_match rt job.title ≤ 1) ∧
    (0 ≤ calculate_skills_match rt job.requirements ∧
      calculate_skills_match rt job.requirements ≤ 1) ∧
    (0 ≤ calculate_experience_match rt job.experience ∧
      calculate_experience_match rt job.experience ≤ 1) ∧
    (0 ≤ calculate_job_match_score rt job ∧ calculate_job_match_score rt job ≤ 1) := by
  have hform : calculate_job_match_score rt job =
      min 1 (max 0 (0.4 * calculate_keyword_score rt job +
        0.2 * calculate_title_match rt job.title +
        0.25 * calculate_skills_match rt job.requirements +
        0.15 * calculate_experience_match rt job.experience)) := by
    unfold calculate_job_match_score
    dsimp only
    rw [show (0 : ℚ) + calculate_keyword_score rt job * 0.4 +
        calculate_title_match rt job.title * 0.2 +
        calculate_skills_match rt job.requirements * 0.25 +
        calculate_experience_match rt job.experience * 0.15 =
        0.4 * calculate_keyword_score rt job +
          0.2 * calculate_title_match rt job.title +
          0.25 * calculate_skills_match rt job.requirements +
          0.15 * calculate_experience_match rt job.experience from by ring]
  refine ⟨hform, by norm_num, calculate_keyword_score_bounds rt job,
    calculate_title_match_bounds rt job.title,
    calculate_skills_match_bounds rt job.requirements,
    calculate_experience_match_bounds rt job.experience, ?_, ?_⟩
  · rw [hform]
    exact le_min (by norm_num) (le_max_left 0 _)
  · rw [hform]
    exact min_le_left 1 _

/-! ## C5 -/

/-- The posting exhibiting the C5 divergence: a requirements text with a
    repeated token. -/
def c5_job : JobPosting :=
  { title := "", company := "", location := "", salary := "", experience := "",
    description := "", requirements := "python python", job_type := "",
    industry := "" }

/-- C5 counterexample: on requirements "python python" and resume text
    "python" the code scores 2/2 = 1 (each token occurrence counts), while
    the claim's distinct-token reading gives 1/2. -/
theorem claim_keyword_distinct_counterexample :
    calculate_keyword_score "python" c5_job = 1 ∧
    keyword_score_claim "python" c5_job = 1/2 ∧
    calculate_keyword_score "python" c5_job ≠ keyword_score_claim "python" c5_job := by
  have hne : wordTokens (lowerL c5_job.requirements.data) ≠ [] := by decide
  have hcount : (wordTokens (lowerL c5_job.requirements.data)).countP
      (fun keyword => inStr keyword (lowerL "python".data)) = 2 := by decide
  have hcountd : ((wordTokens (lowerL c5_job.requirements.data)).dedup).countP
      (fun keyword => inStr keyword (lowerL "python".data)) = 1 := by decide
  have hlen : (wordTokens (lowerL c5_job.requirements.data)).length = 2 := by decide
  have h1 : calculate_keyword_score "python" c5_job = 1 := by
    simp only [calculate_keyword_score, if_neg hne]
    rw [hcount, hlen]
    norm_num
  have h2 : keyword_score_claim "python" c5_job = 1/2 := by
    simp only [keyword_score_claim, if_neg hne]
    rw [hcountd, hlen]
    norm_num
  refine ⟨h1, h2, ?_⟩
  rw [h1, h2]
  norm_num

/-- C5 amended: the keyword factor counts requirement tokens **with
    multiplicity** — every occurrence of a requirement token that appears as
    a substring of the lower-cased resume text counts — divided by the total
    number of requirement tokens; with no tokens the factor is 0, and the
    factor always lies in [0,1]. -/
theorem claim_keyword_score_amended (rt : String) (job : JobPosting) :
    (wordTokens (lowerL job.requirements.data) = [] →
      calculate_keyword_score rt job = 0) ∧
    (wordTokens (lowerL job.requirements.data) ≠ [] →
      calculate_keyword_score rt job =
        (((wordTokens (lowerL job.requirements.data)).countP
          (fun keyword => inStr keyword (lowerL rt.data)) : ℚ)) /
          (((wordTokens (lowerL job.requirements.data)).length : ℚ)) ∧
      0 ≤ calculate_keyword_score rt job ∧ calculate_keyword_score rt job ≤ 1) := by
  constructor
  · intro h
    simp [calculate_keyword_score, h]
  · intro h
    exact ⟨by simp [calculate_keyword_score, h], calculate_keyword_score_bounds rt job⟩

/-- The posting used to witness the amended C5 statement. -/
def c5_witness_job : JobPosting :=
  { title := "", company := "", location := "", salary := "", experience := "",
    description := "", requirements := "python, sql", job_type := "",
    industry := "" }

/-- A posting with empty requirements, witnessing the zero branch of the
    amended C5 statement. -/
def c5_empty_job : JobPosting :=
  { title := "", company := "", location := "", salary := "", experience := "",
    description := "", requirements := "", job_type := "", industry := "" }

/-- Witness for the amended C5 theorem at concrete inputs, one per branch. -/
theorem claim_keyword_score_amended_witness :
    calculate_keyword_score "uses python daily" c5_empty_job = 0 ∧
    calculate_keyword_score "uses python daily" c5_witness_job =
      (((wordTokens (lowerL c5_witness_job.requirements.data)).countP
        (fun keyword => inStr keyword (lowerL "uses python daily".data)) : ℚ)) /
        (((wordTokens (lowerL c5_witness_job.requirements.data)).length : ℚ)) ∧
    0 ≤ calculate_keyword_score "uses python daily" c5_witness_job ∧
    calculate_keyword_score "uses python daily" c5_witness_job ≤ 1 :=
  ⟨(claim_keyword_score_amended "uses python daily" c5_empty_job).1 (by decide),
   (claim_keyword_score_amended "uses python daily" c5_witness_job).2 (by decide)⟩

/-! ## C6 -/

/-- C6: the experience factor is 1/2 when no "<min>[-<max>] years" pattern
    parses from the posting's experience-range text; when the pattern
    parses, it is 4/5 if the resume contains one of the fixed indicator
    phrases and 0 otherwise — independent of the parsed bounds, which do not
    occur in the result. -/
theorem claim_experience_factor (rt je : String) :
    (searchYears (lowerL je.data) = none → calculate_experience_match rt je = 1/2) ∧
    (∀ mn mx, searchYears (lowerL je.data) = some (mn, mx) →
      calculate_experience_match rt je =
        (if experience_indicators.any
            (fun indicator => inStr indicator.data (lowerL rt.data))
         then 4/5 else 0)) := by
  constructor
  · intro h
    unfold calculate_experience_match
    rw [h]
  · intro mn mx h
    unfold calculate_experience_match
    rw [h]
    by_cases hb : experience_indicators.any
        (fun indicator => inStr indicator.data (lowerL rt.data))
    · simp [hb]
    · simp [hb]

/-- Witness for C6 at concrete inputs: a non-parsing range gives 1/2; the
    default catalog's "5-8 years" together with an indicator-bearing resume
    gives the indicator branch. -/
theorem claim_experience_factor_witness :
    calculate_experience_match "professional experience in sales" "fresher" = 1/2 ∧
    calculate_experience_match "professional experience in sales" "5-8 years" =
      (if experience_indicators.any (fun indicator =>
          inStr indicator.data (lowerL "professional experience in sales".data))
       then 4/5 else 0) :=
  ⟨(claim_experience_factor "professional experience in sales" "fresher").1 (by decide),
   (claim_experience_factor "professional experience in sales" "5-8 years").2
     5 (some 8) (by decide)⟩

/-! ## C3 -/

theorem matchLe_trans (a b c : MatchResult) (h1 : matchLe a b = true)
    (h2 : matchLe b c = true) : matchLe a c = true := by
  simp only [matchLe, decide_eq_true_eq] at h1 h2 ⊢
  exact le_trans h2 h1

theorem matchLe_total (a b : MatchResult) : (matchLe a b || matchLe b a) = true := by
  simp only [matchLe, Bool.or_eq_true, decide_eq_true_eq]
  exact le_total b.match_score a.match_score

/-- C3: matching builds one MatchResult per catalog entry (`all_matches` has
    the catalog's length and the sorted list is a permutation of it), the
    output is the stable descending sort truncated to `top_n`, its length is
    at most `min top_n |catalog|`, it is sorted by non-increasing score, and
    entries of equal score retain catalog order (filtering the sorted list
    by any score value gives exactly the catalog-order sublist). -/
theorem claim_match_ranking (rd : ResumeData) (catalog : List JobPosting) (top_n : ℕ) :
    (all_matches catalog rd).length = catalog.length ∧
    match_resume_to_jobs catalog rd top_n =
      ((all_matches catalog rd).mergeSort matchLe).take top_n ∧
    ((all_matches catalog rd).mergeSort matchLe).Perm (all_matches catalog rd) ∧
    (match_resume_to_jobs catalog rd top_n).length ≤ min top_n catalog.length ∧
    List.Sorted (fun a b => b.match_score ≤ a.match_score)
      (match_resume_to_jobs catalog rd top_n) ∧
    (∀ q : ℚ, ((all_matches catalog rd).mergeSort matchLe).filter
        (fun m => m.match_score == q) =
      (all_matches catalog rd).filter (fun m => m.match_score == q)) := by
  have hlen_am : (all_matches catalog rd).length = catalog.length := by
    simp [all_matches, List.enum_length]
  have heq : match_resume_to_jobs catalog rd top_n =
      ((all_matches catalog rd).mergeSort matchLe).take top_n := by
    by_cases hc : catalog = []
    · subst hc
      simp [match_resume_to_jobs, all_matches]
    · simp [match_resume_to_jobs, hc]
  have hperm := List.mergeSort_perm (all_matches catalog rd) matchLe
  have hlen : (match_resume_to_jobs catalog rd top_n).length ≤ min top_n catalog.length := by
    rw [heq, List.length_take, hperm.length_eq, hlen_am]
  have hsorted : List.Sorted (fun a b => b.match_score ≤ a.match_score)
      (match_resume_to_jobs catalog rd top_n) := by
    rw [heq]
    have hfull : ((all_matches catalog rd).mergeSort matchLe).Pairwise
        (fun a b => matchLe a b = true) :=
      List.sorted_mergeSort matchLe_trans matchLe_total _
    have hfull2 : ((all_matches catalog rd).mergeSort matchLe).Pairwise
        (fun a b => b.match_score ≤ a.match_score) :=
      hfull.imp (fun h => by simpa [matchLe] using h)
    exact List.Pairwise.sublist (List.take_sublist top_n _) hfull2
  refine ⟨hlen_am, heq, hperm, hlen, hsorted, ?_⟩
  intro q
  have hfp : ∀ x ∈ (all_matches catalog rd).filter (fun m => m.match_score == q),
      ∀ y ∈ (all_matches catalog rd).filter (fun m => m.match_score == q),
        matchLe x y = true := by
    intro x hx y hy
    have hx' : x.match_score = q := by simpa using (List.mem_filter.mp hx).2
    have hy' : y.match_score = q := by simpa using (List.mem_filter.mp hy).2
    simp [matchLe, hx', hy']
  have hpar := List.pairwise_of_forall_mem_list hfp
  have hsub : ((all_matches catalog rd).filter (fun m => m.match_score == q)).Sublist
      ((all_matches catalog rd).mergeSort matchLe) :=
    List.sublist_mergeSort matchLe_trans matchLe_total hpar (List.filter_sublist _)
  have hself : ((all_matches catalog rd).filter (fun m => m.match_score == q)).filter
      (fun m => m.match_score == q) =
      (all_matches catalog rd).filter (fun m => m.match_score == q) :=
    List.filter_eq_self.mpr (fun a ha => (List.mem_filter.mp ha).2)
  have hsub2 : ((all_matches catalog rd).filter (fun m => m.match_score == q)).Sublist
      (((all_matches catalog rd).mergeSort matchLe).filter (fun m => m.match_score == q)) := by
    have h := hsub.filter (fun m => m.match_score == q)
    rwa [hself] at h
  have hlenf : ((((all_matches catalog rd).mergeSort matchLe)).filter
      (fun m => m.match_score == q)).length =
      (((all_matches catalog rd)).filter (fun m => m.match_score == q)).length :=
    (hperm.filter (fun m => m.match_score == q)).length_eq
  exact (hsub2.eq_of_length hlenf.symm).symm

/-! ## C4 -/

/-- A languages section with 21 comma-separated entries, exhibiting the C4
    cap divergence. -/
def c4_text : String :=
  "Languages: L01, L02, L03, L04, L05, L06, L07, L08, L09, L10, L11, L12, L13, L14, L15, L16, L17, L18, L19, L20, L21"

/-- The section body the locator extracts from `c4_text`. -/
def c4_body : String :=
  "L01, L02, L03, L04, L05, L06, L07, L08, L09, L10, L11, L12, L13, L14, L15, L16, L17, L18, L19, L20, L21"

/-- C4 counterexample.  (a) The 20-token cap sits inside the shared
    tokenizer, so the languages section is capped too: on a languages body
    with 21 entries the code returns 20 tokens where the claim's uncapped
    tokenizer returns 21.  (b) The whitespace fallback runs whenever the
    delimiter split yields no nonempty token, not only when no delimiter
    appears: on ",,," a delimiter class appears, yet the code falls back and
    returns [",,,"], while the claim's tokenizer returns []. -/
theorem claim_list_tokenizer_counterexample :
    findSection sectionStopAt languageHeaders c4_text.data = some c4_body.data ∧
    (extract_languages c4_text).length = 20 ∧
    (list_tokens_claim false c4_body).length = 21 ∧
    extract_languages c4_text ≠ list_tokens_claim false c4_body ∧
    parse_skills_list ",,," = [",,,"] ∧
    list_tokens_claim true ",,," = [] := by
  have h20 : (extract_languages c4_text).length = 20 := by decide
  have h21 : (list_tokens_claim false c4_body).length = 21 := by decide
  refine ⟨by decide, h20, h21, ?_, by decide, by decide⟩
  intro h
  have hlen := congrArg List.length h
  rw [h20, h21] at hlen
  exact absurd hlen (by decide)

/-- C4 amended: the tokenizer tries the delimiter classes in source order
    and splits the whole body with the first class that appears anywhere;
    the whitespace fallback (tokens longer than 2 characters) runs exactly
    when that split produces no nonempty token — in particular when no
    delimiter appears; and the 20-token cap applies to **every** list
    section (skills, languages and certifications alike). -/
theorem claim_list_tokenizer_amended (s t : String) :
    parse_skills_list s =
      (let base :=
        if patSearch .commaClass s.data then
          ((patSplit .commaClass s.data).map pyStrip).filter (fun w => w ≠ [])
        else if patSearch .andSep s.data then
          ((patSplit .andSep s.data).map pyStrip).filter (fun w => w ≠ [])
        else if patSearch .ampSep s.data then
          ((patSplit .ampSep s.data).map pyStrip).filter (fun w => w ≠ [])
        else []
      let toks :=
        if base = [] then
          ((pySplitWs s.data).filter (fun w => (pyStrip w).length > 2)).map pyStrip
        else base
      (toks.take 20).map (fun w => (⟨w⟩ : String))) ∧
    (parse_skills_list s).length ≤ 20 ∧
    (extract_skills t).length ≤ 20 ∧
    (extract_languages t).length ≤ 20 ∧
    (extract_certifications t).length ≤ 20 := by
  have hlen : ∀ u : String, (parse_skills_list u).length ≤ 20 := by
    intro u
    unfold parse_skills_list
    dsimp only
    rw [List.length_map, List.length_take]
    exact min_le_left _ _
  refine ⟨rfl, hlen s, ?_, ?_, ?_⟩
  · cases h : findSection sectionStopAt skillsHeaders t.data with
    | none => simp [extract_skills, h]
    | some body =>
      simp only [extract_skills, h]
      exact hlen _
  · cases h : findSection sectionStopAt languageHeaders t.data with
    | none => simp [extract_languages, h]
    | some body =>
      simp only [extract_languages, h]
      exact hlen _
  · cases h : findSection sectionStopAt certificationHeaders t.data with
    | none => simp [extract_certifications, h]
    | some body =>
      simp only [extract_certifications, h]
      exact hlen _

/-! ## C7 -/

/-- Observer: did the lookup return the empty record (`{}`)? -/
def isEmptyRecord : Except String (Option JobPosting) → Bool
  | Except.ok none => true
  | _ => false

/-- The last entry of the default catalog, for the negative-index lookup. -/
def content_writer_job : JobPosting :=
  { title := "Content Writer", company := "Digital Content Agency",
    location := "Dubai, UAE", salary := "AED 8,000 - 12,000",
    experience := "2-4 years",
    description := "Create engaging content for websites, blogs, and social media platforms. Experience in SEO and content marketing preferred.",
    requirements := "Content Writing, SEO, Social Media, Copywriting, Content Marketing, WordPress",
    job_type := "Full-time", industry := "Marketing" }

/-- C7 counterexample: the guard in `get_job_details` only checks
    `job_id >= len(jobs_data)`, so negative ids reach `iloc`:
    `-11` on the 10-entry default catalog raises IndexError instead of
    returning an empty record, and `-1` returns the last posting (Python
    negative indexing), not an empty record. -/
theorem claim_catalog_lookup_counterexample :
    get_job_details default_jobs (-11) =
      Except.error "IndexError: single positional indexer is out-of-bounds" ∧
    isEmptyRecord (get_job_details default_jobs (-1)) = false ∧
    get_job_details default_jobs (-1) = Except.ok (some content_writer_job) :=
  ⟨rfl, rfl, rfl⟩

/-- C7 amended: lookup with a **non-negative** out-of-range id (id ≥
    |catalog|) returns the empty record; the industry filter returns the
    empty list whenever no posting's industry matches case-insensitively;
    and on the empty catalog the match, search and filter operations all
    return empty lists.  (Negative ids follow Python indexing: ids in
    [-|catalog|, -1] return a record and smaller ids raise IndexError, as
    the counterexample shows.) -/
theorem claim_catalog_ops_amended :
    (∀ (cat : List JobPosting) (job_id : ℤ), (cat.length : ℤ) ≤ job_id →
      get_job_details cat job_id = Except.ok none) ∧
    (∀ (cat : List JobPosting) (industry : String),
      (∀ j ∈ cat, lowerL j.industry.data ≠ lowerL industry.data) →
      get_jobs_by_industry cat industry = []) ∧
    (∀ (rd : ResumeData) (n : ℕ), match_resume_to_jobs [] rd n = []) ∧
    (∀ (q : String) (n : ℕ), search_jobs [] q n = []) ∧
    (∀ (ind : String), get_jobs_by_industry [] ind = []) := by
  refine ⟨?_, ?_, ?_, ?_, ?_⟩
  · intro cat job_id h
    simp [get_job_details, h]
  · intro cat industry h
    by_cases hc : cat = []
    · simp [get_jobs_by_industry, hc]
    · simp only [get_jobs_by_industry, if_neg hc]
      rw [List.filter_eq_nil_iff]
      intro a ha
      simpa using h a ha
  · intro rd n
    rfl
  · intro q n
    rfl
  · intro ind
    rfl

/-- An empty profile, used to instantiate the empty-catalog scenarios. -/
def emptyResume : ResumeData :=
  { raw_text := "", contact_info := { email := none, phone := none, linkedin := none },
    name := "", summary := "", experience := [], education := [], skills := [],
    languages := [], certifications := [], projects := [] }

/-- Witness for the amended C7 theorem at concrete inputs. -/
theorem claim_catalog_ops_amended_witness :
    get_job_details default_jobs 99 = Except.ok none ∧
    get_jobs_by_industry default_jobs "Astrology" = [] ∧
    match_resume_to_jobs [] emptyResume 5 = [] ∧
    search_jobs [] "python" 5 = [] ∧
    get_jobs_by_industry [] "Technology" = [] :=
  ⟨claim_catalog_ops_amended.1 default_jobs 99 (by decide),
   claim_catalog_ops_amended.2.1 default_jobs "Astrology" (by decide),
   claim_catalog_ops_amended.2.2.1 emptyResume 5,
   claim_catalog_ops_amended.2.2.2.1 "python" 5,
   claim_catalog_ops_amended.2.2.2.2 "Technology"⟩

/-! ## C8 -/

/-- C8 counterexample: on "\nJohn Doe" the code skips the blank first line
    and extracts "John Doe", while under the claim's qualification — which
    has no non-blank requirement — the blank first line qualifies (0 ≤ 4
    words, no blacklist word) and the name would be absent. -/
theorem claim_name_blankline_counterexample :
    extract_name "\nJohn Doe" = "John Doe" ∧
    name_claim "\nJohn Doe" = "" ∧
    extract_name "\nJohn Doe" ≠ name_claim "\nJohn Doe" := by
  refine ⟨by decide, by decide, by decide⟩

/-- The scanning loop returns the first stripped line passing `nameLineOk`. -/
theorem nameScan_eq_find (ls : List (List Char)) :
    nameScan ls = ((ls.map pyStrip).find? nameLineOk).getD [] := by
  induction ls with
  | nil => rfl
  | cons l ls ih =>
    simp only [nameScan, List.map_cons, List.find?_cons]
    by_cases h : nameLineOk (pyStrip l)
    · simp [h]
    · simp [h, ih]

/-- C8 amended: a line qualifies as the candidate name iff it is
    **non-blank** after stripping, has at most 4 whitespace-separated words
    and contains no blacklisted metadata word (`nameLineOk`); the name is
    the first stripped line among the first 5 that qualifies, else empty. -/
theorem claim_name_extraction_amended (text : String) :
    extract_name text =
      ⟨((((splitOnChars ['\n'] text.data).take 5).map pyStrip).find? nameLineOk).getD []⟩ := by
  rw [extract_name, nameScan_eq_find]

/-! ## C9 -/

/-- C9: the pipeline is embedded by pure functions, so structure extraction
    and ranked matching are deterministic: equal raw texts give structurally
    identical profiles, and equal texts and catalogs give identical ranked
    output. -/
theorem claim_pipeline_deterministic (t1 t2 : String) (cat1 cat2 : List JobPosting)
    (n1 n2 : ℕ) (ht : t1 = t2) (hc : cat1 = cat2) (hn : n1 = n2) :
    extract_structure t1 = extract_structure t2 ∧
    match_resume_to_jobs cat1 (extract_structure t1) n1 =
      match_resume_to_jobs cat2 (extract_structure t2) n2 := by
  subst ht
  subst hc
  subst hn
  exact ⟨rfl, rfl⟩

/-- Witness for C9 at a concrete text and the default catalog. -/
theorem claim_pipeline_deterministic_witness :
    extract_structure "John Doe" = extract_structure "John Doe" ∧
    match_resume_to_jobs default_jobs (extract_structure "John Doe") 5 =
      match_resume_to_jobs default_jobs (extract_structure "John Doe") 5 :=
  claim_pipeline_deterministic "John Doe" "John Doe" default_jobs default_jobs 5 5
    rfl rfl rfl

/-! ## C10 -/

theorem newline_not_mem_collapseWsAux :
    ∀ (l : List Char) (b : Bool), '\n' ∉ collapseWsAux b l := by
  intro l
  induction l with
  | nil =>
    intro b
    simp [collapseWsAux]
  | cons c cs ih =>
    intro b
    by_cases h : isPySpace c
    · cases b
      · simp only [collapseWsAux, if_pos h, Bool.false_eq_true, if_false, List.mem_cons]
        rintro (heq | hmem)
        · exact absurd heq (by decide)
        · exact ih true hmem
      · simp only [collapseWsAux, if_pos h, if_true]
        exact ih true
    · simp only [collapseWsAux, if_neg h, List.mem_cons]
      rintro (heq | hmem)
      · rw [← heq] at h
        exact h (by decide)
      · exact ih false hmem

theorem mem_of_mem_pyStrip {c : Char} {l : List Char} (h : c ∈ pyStrip l) : c ∈ l := by
  unfold pyStrip at h
  rw [List.mem_reverse] at h
  have h2 : c ∈ (l.dropWhile isPySpace).reverse :=
    List.Sublist.mem h (List.dropWhile_sublist _)
  rw [List.mem_reverse] at h2
  exact List.Sublist.mem h2 (List.dropWhile_sublist _)

theorem newline_not_mem_clean_text (text : String) : '\n' ∉ (clean_text text).data := by
  intro hmem
  have h1 : '\n' ∈ (collapseWs text.data).filter isAllowedChar :=
    mem_of_mem_pyStrip hmem
  have h2 : '\n' ∈ collapseWs text.data := List.mem_of_mem_filter h1
  exact newline_not_mem_collapseWsAux text.data false h2

theorem splitOnChars_no_newline {l : List Char} (h : '\n' ∉ l) :
    splitOnChars ['\n'] l = [l] := by
  unfold splitOnChars
  apply List.splitOnP_eq_single
  intro x hx hcon
  have hx' : x = '\n' := by simpa using hcon
  exact h (hx' ▸ hx)

theorem dropWhile_idem (p : Char → Bool) (l : List Char) :
    (l.dropWhile p).dropWhile p = l.dropWhile p := by
  induction l with
  | nil => rfl
  | cons a l ih =>
    by_cases h : p a
    · simp [List.dropWhile_cons, h, ih]
    · simp [List.dropWhile_cons, h]

theorem head_not_of_dropWhile_eq {p : Char → Bool} {b : Char} {bs : List Char}
    (h : (b :: bs).dropWhile p = b :: bs) : p b = false := by
  by_contra hb
  rw [Bool.not_eq_false] at hb
  rw [List.dropWhile_cons, if_pos hb] at h
  have hle := (@List.dropWhile_sublist Char bs p).length_le
  have := congrArg List.length h
  simp at this
  omega

theorem pyStrip_idem (l : List Char) : pyStrip (pyStrip l) = pyStrip l := by
  unfold pyStrip
  set A := l.dropWhile isPySpace with hA
  have hltrimA : A.dropWhile isPySpace = A := dropWhile_idem isPySpace l
  set R := (A.reverse.dropWhile isPySpace).reverse with hR
  have hRpre : R <+: A := by
    have hpre0 : (A.reverse.dropWhile isPySpace).reverse <+: A.reverse.reverse :=
      List.reverse_prefix.mpr (List.dropWhile_suffix isPySpace)
    rw [List.reverse_reverse] at hpre0
    exact hpre0
  have hltrimR : R.dropWhile isPySpace = R := by
    cases hcase : R with
    | nil => rfl
    | cons b bs =>
      obtain ⟨t, ht⟩ := hRpre
      rw [hcase] at ht
      have hbA : A = b :: (bs ++ t) := by rw [← ht]; simp
      have hb : isPySpace b = false := by
        apply @head_not_of_dropWhile_eq isPySpace b (bs ++ t)
        rw [← hbA]
        exact hltrimA
      rw [List.dropWhile_cons, if_neg (by simp [hb])]
  rw [hltrimR, List.reverse_reverse, dropWhile_idem]

/-- C10: text normalization collapses every whitespace run (newlines
    included) to a single space before any scanning, so the normalized text
    is a single line; consequently the extracted name is non-empty only if
    the entire normalized text has at most 4 whitespace-separated words and
    contains no blacklisted metadata word. -/
theorem claim_single_line_normalization (text : String) :
    '\n' ∉ (clean_text text).data ∧
    splitOnChars ['\n'] (clean_text text).data = [(clean_text text).data] ∧
    (extract_name (clean_text text) ≠ "" →
      (pySplitWs (clean_text text).data).length ≤ 4 ∧
      nameKeywords.all
        (fun kw => !(inStr kw.data (lowerL (clean_text text).data))) = true) := by
  have h1 : '\n' ∉ (clean_text text).data := newline_not_mem_clean_text text
  have h2 := splitOnChars_no_newline h1
  refine ⟨h1, h2, ?_⟩
  intro hne
  have hstrip : pyStrip (clean_text text).data = (clean_text text).data := by
    have hdata : (clean_text text).data =
        pyStrip ((collapseWs text.data).filter isAllowedChar) := rfl
    rw [hdata, pyStrip_idem]
  have hname : extract_name (clean_text text) =
      ⟨if nameLineOk (clean_text text).data then (clean_text text).data else []⟩ := by
    rw [extract_name, h2]
    simp only [List.take, nameScan, hstrip]
  rw [hname] at hne
  by_cases hok : nameLineOk (clean_text text).data
  · have hok' := hok
    simp only [nameLineOk, Bool.and_eq_true, decide_eq_true_eq] at hok'
    exact ⟨hok'.1.2, hok'.2⟩
  · exact absurd (by rw [if_neg hok]) hne

/-- Witness for C10: on "John\nDoe" the normalized text is "John Doe", the
    name is present, and the whole-text conditions hold. -/
theorem claim_single_line_normalization_witness :
    '\n' ∉ (clean_text "John\nDoe").data ∧
    (pySplitWs (clean_text "John\nDoe").data).length ≤ 4 ∧
    nameKeywords.all
      (fun kw => !(inStr kw.data (lowerL (clean_text "John\nDoe").data))) = true :=
  ⟨(claim_single_line_normalization "John\nDoe").1,
   (claim_single_line_normalization "John\nDoe").2.2 (by decide)⟩
